import Mathlib

/-
Shallow embedding of the conversation-state reducer and backend-request
protocol of the RiskChat component (src/app/components/RiskChat.tsx, given
here as src/unnamed/part_000). The file holds three component variants:
the stateful-chat variant (POST /chat, lines ~112-471, restyled duplicate
at ~715-1148 with identical state logic) and the stateless-retrieval
variant (POST /retrieve, lines ~472-714). Both are embedded. JS-specific
behaviour is modelled explicitly: a missing JSON field or an absent
optional TS field is Option.none, the JS fallback operator x || d is
given its truthiness semantics (undefined, null and the empty string are
falsy), and the truthiness test on the trimmed input of the guard is the
all-whitespace test isBlank.
-/

namespace RiskChat

/-- Structured risk attributes of a retrieved finding
(TS type RiskMetadata). The five optional TS fields are Option. -/
structure RiskMetadata where
  company_name : String
  risk_category : String
  risk_subcategory : String
  priority : Int
  doc_type : Option String
  source_name : Option String
  duns_id : Option String
  file_source_tag : Option String
  business_id : Option String
deriving DecidableEq, Repr

/-- One retrieved document (TS type RiskContextItem). -/
structure RiskContextItem where
  content : String
  metadata : RiskMetadata
deriving DecidableEq, Repr

/-- The role of a conversation turn (the TS union of the two string
literals user and assistant). -/
inductive Role where
  | user
  | assistant
deriving DecidableEq, Repr

/-- One conversation turn (TS type ChatMessage). `content` is an Option
because the chat variant stores `data.response` unchecked: when the 2xx
body lacks the field, the JS value undefined reaches the state, modelled
as none; every content built from an actual string is some. `context` is
the optional TS field, absent (none) on user turns and on error turns. -/
structure ChatMessage where
  role : Role
  content : Option String
  context : Option (List RiskContextItem)
deriving DecidableEq, Repr

/-- Truthiness of the guard expression !input.trim(): the trimmed string
is empty, and the guard fires, exactly when every character of the input
is whitespace. The guard is embedded directly as that all-whitespace
test (the trimmed string itself is used nowhere else in sendMessage). -/
def isBlank (s : String) : Bool :=
  s.toList.all Char.isWhitespace

/-- JS fallback `x || d` on an optional string: undefined and the empty
string are falsy and yield the default. -/
def jsOrString (x : Option String) (d : String) : String :=
  match x with
  | none => d
  | some s => if s = "" then d else s

/-- JS fallback `x || []` on an optional array: undefined and null yield
the empty array, and an array (even empty) is truthy and kept, so the
result is always the carried list or []. -/
def jsOrEmpty (x : Option (List RiskContextItem)) : List RiskContextItem :=
  x.getD []

/-- Wire history entry (TS type BackendChatMessage): the backend expects
the role string model for assistant turns. -/
structure BackendChatMessage where
  role : String
  text : Option String
deriving DecidableEq, Repr

/-- The per-turn mapping of the history construction in the chat variant:
role assistant maps to the wire value model, user to user, and text is
the turn content. -/
def toBackendMessage (m : ChatMessage) : BackendChatMessage :=
  { role := if m.role = Role.assistant then "model" else "user",
    text := m.content }

/-- Request body of POST /chat (requestBody in the chat variant). -/
structure ChatRequestBody where
  query : String
  history : List BackendChatMessage
  k : Nat
deriving DecidableEq, Repr

/-- Request body of POST /retrieve (the retrieve variant). -/
structure RetrieveRequestBody where
  query : String
  k : Nat
deriving DecidableEq, Repr

/-- Parsed JSON body of a resolved 2xx response: the response and context
fields, each possibly missing from the body. -/
structure BackendData where
  response : Option String
  context : Option (List RiskContextItem)
deriving DecidableEq, Repr

/-- The HTTP outcome seen by sendMessage: a resolved 2xx response with
its parsed body, or a rejection (network failure or non-2xx status, which
axios turns into a thrown error) carrying the string form of the caught
error value after the nullish fallback to Unknown. -/
inductive Outcome where
  | success (data : BackendData)
  | failure (err : String)
deriving DecidableEq, Repr

/-- Component state of the chat variant: the messages list, the input
buffer, and the isLoading flag. -/
structure ChatState where
  messages : List ChatMessage
  input : String
  isLoading : Bool
deriving DecidableEq, Repr

/-- The error content template of the chat variant catch block, with the
interpolated error value. -/
def chatErrorContent (err : String) : String :=
  "Sorry, an error occurred while processing your query. (Error: " ++ err ++ ")"

/-- Start of sendMessage in the chat variant: the guard
(blank-after-trim input or isLoading returns with no request), the
optimistic append of the user turn, clearing the input, setting
isLoading, and the request body whose history maps the pre-submit
messages (the closure value, excluding the just-appended turn) and whose
query is the submitted text. Returns the new state and the issued
request, none when no request is issued. -/
def chatSendStart (st : ChatState) : ChatState × Option ChatRequestBody :=
  if isBlank st.input = true ∨ st.isLoading = true then (st, none)
  else
    ({ messages := st.messages ++
        [{ role := Role.user, content := some st.input, context := none }],
       input := "",
       isLoading := true },
     some { query := st.input, history := st.messages.map toBackendMessage, k := 5 })

/-- Resolution of the chat variant request. Success: slice off the last
element, then append the closure user message and the assistant message
whose content is data.response unchecked and whose context is the JS
fallback of data.context. Failure: slice off the last element and append
the interpolated error assistant turn (the catch block does not reinsert
the user message). Both paths end with isLoading false (the finally
block). -/
def chatResolve (st : ChatState) (userMessage : ChatMessage) (outcome : Outcome) :
    ChatState :=
  match outcome with
  | Outcome.success data =>
      { messages := st.messages.dropLast ++
          [userMessage,
           { role := Role.assistant, content := data.response,
             context := some (jsOrEmpty data.context) }],
        input := st.input,
        isLoading := false }
  | Outcome.failure err =>
      { messages := st.messages.dropLast ++
          [{ role := Role.assistant, content := some (chatErrorContent err),
             context := none }],
        input := st.input,
        isLoading := false }

/-- One full submission in the chat variant: start, then, when a request
was issued, resolve it with the given outcome. Between the two phases the
input affordance is disabled by isLoading, so no interleaved submission
can run. -/
def chatSubmit (st : ChatState) (outcome : Outcome) :
    ChatState × Option ChatRequestBody :=
  match chatSendStart st with
  | (st1, none) => (st1, none)
  | (st1, some req) =>
      (chatResolve st1
        { role := Role.user, content := some st.input, context := none } outcome,
       some req)

/-- Component state of the retrieve variant: messages and the input
buffer. This variant has no isLoading flag. -/
structure RetrieveState where
  messages : List ChatMessage
  input : String
deriving DecidableEq, Repr

/-- Start of sendMessage in the retrieve variant: only the blank-input
guard, then the optimistic append and the request with query and k.
The input buffer is NOT cleared here (setInput runs only after the
request settles), and there is no isLoading guard. -/
def retrieveSendStart (st : RetrieveState) : RetrieveState × Option RetrieveRequestBody :=
  if isBlank st.input = true then (st, none)
  else
    ({ messages := st.messages ++
        [{ role := Role.user, content := some st.input, context := none }],
       input := st.input },
     some { query := st.input, k := 5 })

/-- Resolution of the retrieve variant request. Success: append the
assistant turn with the JS fallback of resp.response to the fixed string
and the JS fallback of resp.context to []. Failure: append the fixed
error turn. Both paths then clear the input (setInput after the
try/catch). -/
def retrieveResolve (st : RetrieveState) (outcome : Outcome) : RetrieveState :=
  match outcome with
  | Outcome.success data =>
      { messages := st.messages ++
          [{ role := Role.assistant,
             content := some (jsOrString data.response "Here are the results:"),
             context := some (jsOrEmpty data.context) }],
        input := "" }
  | Outcome.failure _ =>
      { messages := st.messages ++
          [{ role := Role.assistant,
             content := some "Error: Could not connect to backend.",
             context := none }],
        input := "" }

/-- One full submission in the retrieve variant, assuming no interleaved
submission between start and resolution. -/
def retrieveSubmit (st : RetrieveState) (outcome : Outcome) :
    RetrieveState × Option RetrieveRequestBody :=
  match retrieveSendStart st with
  | (st1, none) => (st1, none)
  | (st1, some _) => (retrieveResolve st1 outcome, some { query := st.input, k := 5 })

/-- Seed payload handed to the component at mount (TS type
RiskChatProps.initialResponse, all fields optional). -/
structure InitialResponse where
  query : Option String
  status : Option String
  count : Option Int
  context : Option (List RiskContextItem)
deriving DecidableEq, Repr

/-- useState initializer of the chat variant: when
initialResponse?.context?.length is truthy (context present and
nonempty), one synthetic assistant turn whose content references the
query when the query is truthy (present and nonempty); otherwise the
empty list. -/
def chatInit (ir : Option InitialResponse) : List ChatMessage :=
  match ir with
  | none => []
  | some r =>
    match r.context with
    | none => []
    | some l =>
      if l.isEmpty then []
      else
        [{ role := Role.assistant,
           content := some (match r.query with
             | some q =>
                 if q = "" then "Loaded initial risk data."
                 else "Here are the initial risk findings for: \"" ++ q ++ "\""
             | none => "Loaded initial risk data."),
           context := some l }]

/-- The static greeting turn of the retrieve variant initializer; its
context field is absent. -/
def retrieveGreeting : ChatMessage :=
  { role := Role.assistant,
    content := some "Ask a query to retrieve risk findings.",
    context := none }

/-- useState initializer of the retrieve variant: same truthiness test,
but the seeded content template reads high priority risks, and the
no-seed branch is the single static greeting turn. -/
def retrieveInit (ir : Option InitialResponse) : List ChatMessage :=
  match ir with
  | none => [retrieveGreeting]
  | some r =>
    match r.context with
    | none => [retrieveGreeting]
    | some l =>
      if l.isEmpty then [retrieveGreeting]
      else
        [{ role := Role.assistant,
           content := some (match r.query with
             | some q =>
                 if q = "" then "Loaded initial risk data."
                 else "Here are the high priority risks for: \"" ++ q ++ "\""
             | none => "Loaded initial risk data."),
           context := some l }]

/-- A concrete retrieved finding (the first seed item of
src/app/page.tsx, abridged text) used to instantiate theorems. -/
def sampleItem : RiskContextItem :=
  { content := "Risk Finding for IBM.",
    metadata :=
      { company_name := "IBM",
        risk_category := "Government Restrictions",
        risk_subcategory := "CONTESTED INDUSTRY: Presence in a contested industry",
        priority := 4,
        doc_type := some "RiskFinding",
        source_name := some "BSD",
        duns_id := some "N/A",
        file_source_tag := some "ibm",
        business_id := some "95c71582-c539-4089-8a2f-9592ebefabf2" } }

end RiskChat

namespace RiskChat

/-- C1 (amended): in the retrieve variant, every failed request appends
exactly one assistant turn with the fixed content
"Error: Could not connect to backend." and no context, keeping the
optimistic user turn in place; in the chat variant, the catch block
removes the optimistic user turn and appends one assistant turn whose
content interpolates the caught error value, so afterwards the sequence
holds no orphaned user turn because the user turn itself is gone. -/
theorem C1_failure_appends_error_turn (msgs : List ChatMessage) (input err : String)
    (h : isBlank input = false) :
    (retrieveSubmit { messages := msgs, input := input } (Outcome.failure err)).1.messages =
      msgs ++
        [{ role := Role.user, content := some input, context := none },
         { role := Role.assistant, content := some "Error: Could not connect to backend.",
           context := none }] ∧
    (chatSubmit { messages := msgs, input := input, isLoading := false }
        (Outcome.failure err)).1.messages =
      msgs ++
        [{ role := Role.assistant, content := some (chatErrorContent err),
           context := none }] := by
  constructor
  · simp [retrieveSubmit, retrieveSendStart, retrieveResolve, h]
  · simp [chatSubmit, chatSendStart, chatResolve, h]

/-- C1 witness: the amended behaviour at the empty conversation,
input "a", error "Network Error". -/
theorem C1_failure_appends_error_turn_witness :
    (retrieveSubmit { messages := [], input := "a" }
        (Outcome.failure "Network Error")).1.messages =
      [{ role := Role.user, content := some "a", context := none },
       { role := Role.assistant, content := some "Error: Could not connect to backend.",
         context := none }] ∧
    (chatSubmit { messages := [], input := "a", isLoading := false }
        (Outcome.failure "Network Error")).1.messages =
      [{ role := Role.assistant,
         content := some (chatErrorContent "Network Error"),
         context := none }] :=
  C1_failure_appends_error_turn [] "a" "Network Error" (by decide)

/-- C1 counterexample: in the chat variant, submitting "a" from the empty
conversation and failing leaves a sequence holding only the interpolated
error assistant turn: the optimistic user turn has been removed, and the
error content is not the fixed string. -/
theorem C1_counterexample :
    (chatSubmit { messages := [], input := "a", isLoading := false }
        (Outcome.failure "Network Error")).1.messages =
      [{ role := Role.assistant,
         content :=
           some "Sorry, an error occurred while processing your query. (Error: Network Error)",
         context := none }] ∧
    some "Sorry, an error occurred while processing your query. (Error: Network Error)" ≠
      some "Error: Could not connect to backend." :=
  ⟨by decide, by decide⟩

/-- C2 (amended): in the chat variant, while isLoading is true every
submission attempt leaves the state unchanged and issues no request. -/
theorem C2_loading_guard (st : ChatState) (h : st.isLoading = true) :
    chatSendStart st = (st, none) := by
  simp [chatSendStart, h]

/-- C2 witness: the guard at a concrete loading state. -/
theorem C2_loading_guard_witness :
    chatSendStart { messages := [], input := "x", isLoading := true } =
      ({ messages := [], input := "x", isLoading := true }, none) :=
  C2_loading_guard { messages := [], input := "x", isLoading := true } rfl

/-- C2 counterexample: the retrieve variant has no outstanding-request
guard: after a first submission of "hi" (request outstanding, input
buffer still "hi", nothing disabled), a second submission issues a second
request and appends a second user turn. -/
theorem C2_counterexample :
    (retrieveSendStart (retrieveSendStart { messages := [], input := "hi" }).1).2 =
      some { query := "hi", k := 5 } ∧
    (retrieveSendStart (retrieveSendStart { messages := [], input := "hi" }).1).1.messages =
      [{ role := Role.user, content := some "hi", context := none },
       { role := Role.user, content := some "hi", context := none }] :=
  ⟨by decide, by decide⟩

/-- C3: in the chat variant, the outbound request body has query equal to
the submitted text and history equal to the pre-submit messages mapped in
order by toBackendMessage (assistant to model, user to user); the history
length equals the prior sequence length, so the just-submitted turn is
not inside it. -/
theorem C3_history_mapping (msgs : List ChatMessage) (input : String)
    (h : isBlank input = false) :
    (chatSendStart { messages := msgs, input := input, isLoading := false }).2 =
      some { query := input, history := msgs.map toBackendMessage, k := 5 } ∧
    (msgs.map toBackendMessage).length = msgs.length := by
  constructor
  · simp [chatSendStart, h]
  · simp

/-- C3 witness: from turns user "a", assistant "b", submitting "c" yields
history user/"a", model/"b" and query "c". -/
theorem C3_history_mapping_witness :
    (chatSendStart
        { messages :=
            [{ role := Role.user, content := some "a", context := none },
             { role := Role.assistant, content := some "b", context := none }],
          input := "c", isLoading := false }).2 =
      some { query := "c",
             history := [{ role := "user", text := some "a" },
                         { role := "model", text := some "b" }],
             k := 5 } := by
  rw [(C3_history_mapping
    [{ role := Role.user, content := some "a", context := none },
     { role := Role.assistant, content := some "b", context := none }] "c" (by decide)).1]
  rfl

/-- C4: on every successfully resolved request, both variants append
exactly one assistant turn whose stored context is some of the JS
fallback of the backend context (the carried list, or [] when the field
was omitted or null, never none), and the retrieve variant never treats
an absent context as a failure; jsOrEmpty none evaluates to []. -/
theorem C4_success_appends_assistant (msgs : List ChatMessage) (input : String)
    (data : BackendData) (h : isBlank input = false) :
    (chatSubmit { messages := msgs, input := input, isLoading := false }
        (Outcome.success data)).1.messages =
      msgs ++
        [{ role := Role.user, content := some input, context := none },
         { role := Role.assistant, content := data.response,
           context := some (jsOrEmpty data.context) }] ∧
    (retrieveSubmit { messages := msgs, input := input }
        (Outcome.success data)).1.messages =
      msgs ++
        [{ role := Role.user, content := some input, context := none },
         { role := Role.assistant,
           content := some (jsOrString data.response "Here are the results:"),
           context := some (jsOrEmpty data.context) }] ∧
    jsOrEmpty none = ([] : List RiskContextItem) := by
  refine ⟨?_, ?_, rfl⟩
  · simp [chatSubmit, chatSendStart, chatResolve, h]
  · simp [retrieveSubmit, retrieveSendStart, retrieveResolve, h]

/-- C4 witness: a successful response with body response "ans" and no
context field, submitted from the empty conversation. -/
theorem C4_success_appends_assistant_witness :
    (chatSubmit { messages := [], input := "q", isLoading := false }
        (Outcome.success { response := some "ans", context := none })).1.messages =
      [{ role := Role.user, content := some "q", context := none },
       { role := Role.assistant, content := some "ans", context := some [] }] ∧
    (retrieveSubmit { messages := [], input := "q" }
        (Outcome.success { response := some "ans", context := none })).1.messages =
      [{ role := Role.user, content := some "q", context := none },
       { role := Role.assistant, content := some "ans", context := some [] }] ∧
    jsOrEmpty none = ([] : List RiskContextItem) := by
  simpa [jsOrEmpty, jsOrString] using
    C4_success_appends_assistant [] "q" { response := some "ans", context := none } (by decide)

end RiskChat

namespace RiskChat

/-- C5 (amended): a resolved 2xx response whose body lacks the response
field is treated as success, not as a failure: the retrieve variant
appends a normal assistant turn with the fallback content
"Here are the results:", and the chat variant appends a normal assistant
turn whose content is the undefined value of the missing field; only a
rejected request (network failure or non-2xx status, which axios throws)
reaches the catch path. -/
theorem C5_malformed_body_is_success (msgs : List ChatMessage) (input : String)
    (ctx : Option (List RiskContextItem)) (h : isBlank input = false) :
    (retrieveSubmit { messages := msgs, input := input }
        (Outcome.success { response := none, context := ctx })).1.messages =
      msgs ++
        [{ role := Role.user, content := some input, context := none },
         { role := Role.assistant, content := some "Here are the results:",
           context := some (jsOrEmpty ctx) }] ∧
    (chatSubmit { messages := msgs, input := input, isLoading := false }
        (Outcome.success { response := none, context := ctx })).1.messages =
      msgs ++
        [{ role := Role.user, content := some input, context := none },
         { role := Role.assistant, content := none,
           context := some (jsOrEmpty ctx) }] := by
  constructor
  · simp [retrieveSubmit, retrieveSendStart, retrieveResolve, h, jsOrString]
  · simp [chatSubmit, chatSendStart, chatResolve, h]

/-- C5 witness: the malformed-body behaviour at the empty conversation,
input "q", body carrying neither response nor context. -/
theorem C5_malformed_body_is_success_witness :
    (retrieveSubmit { messages := [], input := "q" }
        (Outcome.success { response := none, context := none })).1.messages =
      [{ role := Role.user, content := some "q", context := none },
       { role := Role.assistant, content := some "Here are the results:",
         context := some [] }] ∧
    (chatSubmit { messages := [], input := "q", isLoading := false }
        (Outcome.success { response := none, context := none })).1.messages =
      [{ role := Role.user, content := some "q", context := none },
       { role := Role.assistant, content := none, context := some [] }] := by
  simpa [jsOrEmpty] using
    C5_malformed_body_is_success [] "q" none (by decide)

/-- C5 counterexample: a 2xx body missing the response field yields a
normal success assistant turn in both variants; in particular the
retrieve variant appends content "Here are the results:", which is not
the failure turn. -/
theorem C5_counterexample :
    (retrieveSubmit { messages := [], input := "w" }
        (Outcome.success { response := none, context := none })).1.messages =
      [{ role := Role.user, content := some "w", context := none },
       { role := Role.assistant, content := some "Here are the results:",
         context := some [] }] ∧
    (chatSubmit { messages := [], input := "w", isLoading := false }
        (Outcome.success { response := none, context := none })).1.messages =
      [{ role := Role.user, content := some "w", context := none },
       { role := Role.assistant, content := none, context := some [] }] ∧
    some "Here are the results:" ≠ some "Error: Could not connect to backend." :=
  ⟨by decide, by decide, by decide⟩

/-- C6 (amended): with a seed payload carrying a nonempty query q and a
nonempty context list, the chat variant initializer yields exactly one
assistant turn whose content references q with the initial-risk-findings
template, while the retrieve variant initializer uses the
high-priority-risks template; with no seed payload the chat variant
starts empty and the retrieve variant starts with the single static
greeting turn carrying no context. -/
theorem C6_seed_behavior (q : String) (items : List RiskContextItem)
    (hq : q ≠ "") (hitems : items ≠ []) :
    chatInit (some
        { query := some q, status := none, count := none, context := some items }) =
      [{ role := Role.assistant,
         content := some ("Here are the initial risk findings for: \"" ++ q ++ "\""),
         context := some items }] ∧
    retrieveInit (some
        { query := some q, status := none, count := none, context := some items }) =
      [{ role := Role.assistant,
         content := some ("Here are the high priority risks for: \"" ++ q ++ "\""),
         context := some items }] ∧
    chatInit none = [] ∧
    retrieveInit none = [retrieveGreeting] := by
  obtain ⟨a, t, rfl⟩ := List.exists_cons_of_ne_nil hitems
  refine ⟨?_, ?_, rfl, rfl⟩ <;> simp [chatInit, retrieveInit, hq]

/-- C6 witness: the seeded and unseeded initial sequences at query "Q"
and the single sample finding. -/
theorem C6_seed_behavior_witness :
    chatInit (some
        { query := some "Q", status := none, count := none,
          context := some [sampleItem] }) =
      [{ role := Role.assistant,
         content := some ("Here are the initial risk findings for: \"" ++ "Q" ++ "\""),
         context := some [sampleItem] }] ∧
    retrieveInit (some
        { query := some "Q", status := none, count := none,
          context := some [sampleItem] }) =
      [{ role := Role.assistant,
         content := some ("Here are the high priority risks for: \"" ++ "Q" ++ "\""),
         context := some [sampleItem] }] ∧
    chatInit none = [] ∧
    retrieveInit none = [retrieveGreeting] :=
  C6_seed_behavior "Q" [sampleItem] (by decide) (by simp)

/-- C6 counterexample: the retrieve variant seeds with the
high-priority-risks template, not the initial-risk-findings content the
claim states for every variant. -/
theorem C6_counterexample :
    retrieveInit (some
        { query := some "Q", status := none, count := none,
          context := some [sampleItem] }) =
      [{ role := Role.assistant,
         content := some "Here are the high priority risks for: \"Q\"",
         context := some [sampleItem] }] ∧
    ("Here are the high priority risks for: \"Q\"" : String) ≠
      "Here are the initial risk findings for: \"Q\"" :=
  ⟨by decide, by decide⟩

/-- C7: submitting input whose every character is whitespace (in
particular the empty string) is a no-op in both variants: the state is
returned unchanged and no request is issued. -/
theorem C7_blank_input_noop (stc : ChatState) (str : RetrieveState)
    (h1 : isBlank stc.input = true) (h2 : isBlank str.input = true) :
    chatSendStart stc = (stc, none) ∧ retrieveSendStart str = (str, none) := by
  constructor <;> simp [chatSendStart, retrieveSendStart, h1, h2]

/-- C7 witness: the no-op at the whitespace-only input of three
spaces. -/
theorem C7_blank_input_noop_witness :
    chatSendStart { messages := [], input := "   ", isLoading := false } =
      ({ messages := [], input := "   ", isLoading := false }, none) ∧
    retrieveSendStart { messages := [], input := "   " } =
      ({ messages := [], input := "   " }, none) :=
  C7_blank_input_noop { messages := [], input := "   ", isLoading := false }
    { messages := [], input := "   " } (by decide) (by decide)

/-- C8: for input that is not all whitespace, the submission appends the
optimistic user turn: in both variants the messages become the old list
with one user turn of that content at the end, so the length strictly
increases by one and the new last element is that user turn. -/
theorem C8_append_user_turn (msgs : List ChatMessage) (input : String)
    (h : isBlank input = false) :
    (chatSendStart { messages := msgs, input := input, isLoading := false }).1.messages =
      msgs ++ [{ role := Role.user, content := some input, context := none }] ∧
    (chatSendStart
        { messages := msgs, input := input, isLoading := false }).1.messages.length =
      msgs.length + 1 ∧
    (chatSendStart
        { messages := msgs, input := input, isLoading := false }).1.messages.getLast? =
      some { role := Role.user, content := some input, context := none } ∧
    (retrieveSendStart { messages := msgs, input := input }).1.messages =
      msgs ++ [{ role := Role.user, content := some input, context := none }] ∧
    (retrieveSendStart { messages := msgs, input := input }).1.messages.length =
      msgs.length + 1 ∧
    (retrieveSendStart { messages := msgs, input := input }).1.messages.getLast? =
      some { role := Role.user, content := some input, context := none } := by
  refine ⟨?_, ?_, ?_, ?_, ?_, ?_⟩ <;>
    simp [chatSendStart, retrieveSendStart, h, List.getLast?_concat]

/-- C8 witness: the optimistic append at the empty conversation and
input "q". -/
theorem C8_append_user_turn_witness :
    (chatSendStart { messages := [], input := "q", isLoading := false }).1.messages =
      [{ role := Role.user, content := some "q", context := none }] ∧
    (chatSendStart
        { messages := [], input := "q", isLoading := false }).1.messages.length =
      0 + 1 ∧
    (chatSendStart
        { messages := [], input := "q", isLoading := false }).1.messages.getLast? =
      some { role := Role.user, content := some "q", context := none } ∧
    (retrieveSendStart { messages := [], input := "q" }).1.messages =
      [{ role := Role.user, content := some "q", context := none }] ∧
    (retrieveSendStart { messages := [], input := "q" }).1.messages.length = 0 + 1 ∧
    (retrieveSendStart { messages := [], input := "q" }).1.messages.getLast? =
      some { role := Role.user, content := some "q", context := none } := by
  simpa using C8_append_user_turn [] "q" (by decide)

/-- C9: every state transition of a full submission preserves all turns
present before the optimistic user turn: in both variants, on success as
on failure, the resulting messages restricted to the first old-length
positions equal the old list unchanged and in order. -/
theorem C9_frame_preserves_prior_turns (msgs : List ChatMessage) (input : String)
    (outcome : Outcome) (h : isBlank input = false) :
    ((chatSubmit { messages := msgs, input := input, isLoading := false }
        outcome).1.messages.take msgs.length = msgs) ∧
    ((retrieveSubmit { messages := msgs, input := input }
        outcome).1.messages.take msgs.length = msgs) := by
  cases outcome <;> constructor <;>
    simp [chatSubmit, chatSendStart, chatResolve, retrieveSubmit, retrieveSendStart,
      retrieveResolve, h, List.take_left]

/-- C9 witness: the frame property at a one-turn conversation, input
"q", a failing request. -/
theorem C9_frame_preserves_prior_turns_witness :
    ((chatSubmit { messages := [retrieveGreeting], input := "q", isLoading := false }
        (Outcome.failure "boom")).1.messages.take [retrieveGreeting].length =
      [retrieveGreeting]) ∧
    ((retrieveSubmit { messages := [retrieveGreeting], input := "q" }
        (Outcome.failure "boom")).1.messages.take [retrieveGreeting].length =
      [retrieveGreeting]) :=
  C9_frame_preserves_prior_turns [retrieveGreeting] "q" (Outcome.failure "boom")
    (by decide)

/-- C10: after a full submission of input that is not all whitespace, the
input buffer is the empty string on the success path and on the failure
path, in both variants. -/
theorem C10_input_cleared (msgs : List ChatMessage) (input : String)
    (outcome : Outcome) (h : isBlank input = false) :
    (chatSubmit { messages := msgs, input := input, isLoading := false }
        outcome).1.input = "" ∧
    (retrieveSubmit { messages := msgs, input := input } outcome).1.input = "" := by
  cases outcome <;> constructor <;>
    simp [chatSubmit, chatSendStart, chatResolve, retrieveSubmit, retrieveSendStart,
      retrieveResolve, h]

/-- C10 witness: the cleared buffer at the empty conversation, input
"q", a successful request. -/
theorem C10_input_cleared_witness :
    (chatSubmit { messages := [], input := "q", isLoading := false }
        (Outcome.success { response := some "ans", context := none })).1.input = "" ∧
    (retrieveSubmit { messages := [], input := "q" }
        (Outcome.success { response := some "ans", context := none })).1.input = "" :=
  C10_input_cleared [] "q" (Outcome.success { response := some "ans", context := none })
    (by decide)

end RiskChat
